import Mathlib

set_option linter.unusedVariables false

/-!
Verification of the PLM-Translator service layer against its specification.

The development shallowly embeds the Python modules `utils.py`,
`services/translator.py`, `config.py`, `models.py` and `routes/api.py`:
pure functions become Lean functions, the process state of the translator and
its network effects become explicit state passing over an outcome type,
machine floats become an explicit model with NaN and infinities, and the
database query layer becomes list filtering, stable sorting and slicing.
-/

namespace PLM

/-! ## Model of Python float values

Python floats are modelled as exact rationals extended with the three
non-finite values.  Decimal-literal parsing is kept exact (no rounding to
binary); this is faithful for every comparison against 0 and 100 that the
code performs except for literals with more significant digits than a
double holds, which no claim exercises.  Numeric-literal underscores
(Python 3.6 `1_000`) are not modelled. -/

inductive PyFloat where
  | finite (q : ℚ)
  | inf
  | ninf
  | nan
deriving DecidableEq, Repr

/-- IEEE-style `<`: any comparison with NaN is false. -/
def PyFloat.ltb : PyFloat → PyFloat → Bool
  | .finite a, .finite b => decide (a < b)
  | .finite _, .inf => true
  | .ninf, .finite _ => true
  | .ninf, .inf => true
  | _, _ => false

/-- IEEE-style `>`: any comparison with NaN is false. -/
def PyFloat.gtb (a b : PyFloat) : Bool := PyFloat.ltb b a

def PyFloat.isFinite : PyFloat → Bool
  | .finite _ => true
  | _ => false

/-- Python truthiness of a float: only (±)0.0 is falsy; NaN is truthy. -/
def PyFloat.truthy : PyFloat → Bool
  | .finite q => decide (q ≠ 0)
  | _ => true

/-- Whitespace stripped by `str.strip()` (ASCII subset, which the claims use). -/
def isPyWs (c : Char) : Bool :=
  c = ' ' ∨ c = '\t' ∨ c = '\n' ∨ c = '\r' ∨ c = '\x0b' ∨ c = '\x0c'

/-- Embedding of `str.strip()` on the character list. -/
def stripWs (cs : List Char) : List Char :=
  ((cs.dropWhile isPyWs).reverse.dropWhile isPyWs).reverse

/-- Embedding of `str.strip()`. -/
def pyStrip (s : String) : String := String.mk (stripWs s.data)

def digitVal (c : Char) : ℕ := c.toNat - '0'.toNat

def digitsToNat (cs : List Char) : ℕ :=
  cs.foldl (fun a c => 10 * a + digitVal c) 0

/-- Parse an unsigned decimal float literal `digits [. digits] [(e|E) [sign] digits]`
exactly as the CPython `float(str)` grammar accepts it (at least one mantissa
digit; nothing may follow). -/
def parseUnsigned (cs : List Char) : Option ℚ :=
  let ip := cs.takeWhile Char.isDigit
  let r1 := cs.dropWhile Char.isDigit
  let fp := match r1 with
    | '.' :: rest => rest.takeWhile Char.isDigit
    | _ => []
  let r2 := match r1 with
    | '.' :: rest => rest.dropWhile Char.isDigit
    | _ => r1
  if ip.isEmpty ∧ fp.isEmpty then none
  else
    let num := digitsToNat (ip ++ fp)
    let den := 10 ^ fp.length
    match r2 with
    | [] => some (mkRat num den)
    | e :: rest =>
      if e = 'e' ∨ e = 'E' then
        let eneg : Bool := match rest with
          | '-' :: _ => true
          | _ => false
        let rest2 := match rest with
          | '+' :: t => t
          | '-' :: t => t
          | t => t
        let ed := rest2.takeWhile Char.isDigit
        let r3 := rest2.dropWhile Char.isDigit
        if ed.isEmpty ∨ ¬ r3.isEmpty then none
        else some (if eneg then mkRat num (den * 10 ^ digitsToNat ed)
                   else mkRat (num * 10 ^ digitsToNat ed) den)
      else none

/-- CPython `float(str)`: strip whitespace, optional sign, then either a
(case-insensitive) `inf`/`infinity`/`nan` or a decimal literal.  `none`
models a raised `ValueError`. -/
def pyFloatOfString (s : String) : Option PyFloat :=
  let cs := stripWs s.data
  let neg : Bool := match cs with
    | '-' :: _ => true
    | _ => false
  let body := match cs with
    | '+' :: t => t
    | '-' :: t => t
    | t => t
  let lb := body.map Char.toLower
  if lb = [ 'i', 'n', 'f' ] ∨ lb = [ 'i', 'n', 'f', 'i', 'n', 'i', 't', 'y' ] then
    some (if neg then .ninf else .inf)
  else if lb = [ 'n', 'a', 'n' ] then
    some .nan
  else
    match parseUnsigned body with
    | some q => some (.finite (if neg then -q else q))
    | none => none

/-- Values a JSON payload field can hold, as the validators observe them.
`none` doubles for an absent key because `dict.get` returns `None` then. -/
inductive PyVal where
  | none
  | bool (b : Bool)
  | str (s : String)
  | num (x : PyFloat)
deriving DecidableEq, Repr

/-- Python truthiness of a field value. -/
def PyVal.truthy : PyVal → Bool
  | .none => false
  | .bool b => b
  | .str s => decide (s ≠ "")
  | .num x => x.truthy

/-- Embedding of `float(v)`: `None` raises `TypeError` (`none`), booleans coerce to 0/1,
numbers pass through, strings go through the literal parser. -/
def pyFloatOf : PyVal → Option PyFloat
  | .none => Option.none
  | .bool b => some (.finite (if b then 1 else 0))
  | .num x => some x
  | .str s => pyFloatOfString s

/-! ## Request validators (`utils.py`)

A translation payload is observed only through its `text` and
`target_language` fields, via `dict.get` with the empty-string default;
the two fields are modelled as optional strings.  A falsy payload
(`None`, or the empty JSON object `{}`) is `Option.none` at the outer
level. -/

structure TransData where
  text : Option String
  target_language : Option String
deriving DecidableEq, Repr

/-- Embedding of `utils.validate_translation_request`. -/
def validate_translation_request : Option TransData → Bool × Option String
  | Option.none => (false, some "No data provided")
  | some d =>
    let source_text := pyStrip (d.text.getD "")
    let target_language := pyStrip (d.target_language.getD "")
    if source_text = "" then (false, some "Please enter text to translate")
    else if target_language = "" then (false, some "Please select a target language")
    else if source_text.length > 5000 then
      (false, some "Text is too long. Maximum 5000 characters allowed.")
    else (true, Option.none)

/-- A test-result payload as `validate_test_result_data` observes it:
the `outcome` and `accuracy` fields fetched with `dict.get`. -/
structure TestData where
  outcome : PyVal
  accuracy : PyVal
deriving DecidableEq, Repr

/-- Embedding of `utils.validate_test_result_data`.  Returns the
source `(ok, error-message, normalized-accuracy)` triple. -/
def validate_test_result_data : Option TestData → Bool × Option String × Option PyFloat
  | Option.none => (false, some "No data provided", Option.none)
  | some d =>
    if ¬ d.outcome.truthy then (false, some "Outcome is required", Option.none)
    else if ¬ d.accuracy.truthy then (false, some "Accuracy is required", Option.none)
    else
      match pyFloatOf d.accuracy with
      | Option.none => (false, some "Accuracy must be a valid number", Option.none)
      | some accuracy =>
        if accuracy.ltb (.finite 0) ∨ accuracy.gtb (.finite 100) then
          (false, some "Accuracy must be between 0 and 100", Option.none)
        else (true, Option.none, some accuracy)

/-! ## Validation inlined in the route handlers (`routes/api.py`)

The `/translate` and `/save-test-results` handlers do not call the pure
validators; they repeat the same checks inline before doing I/O.  The
inline copies are embedded separately so their agreement with the pure
validators is a theorem, not a definition. -/

/-- Validation section of the `/translate` handler (`routes/api.py`,
before `translator_service.translate_text` is reached). -/
def translate_route_validation : Option TransData → Bool × Option String
  | Option.none => (false, some "No data provided")
  | some d =>
    let source_text := pyStrip (d.text.getD "")
    let target_language := pyStrip (d.target_language.getD "")
    if source_text = "" then (false, some "Please enter text to translate")
    else if target_language = "" then (false, some "Please select a target language")
    else if source_text.length > 5000 then
      (false, some "Text is too long. Maximum 5000 characters allowed.")
    else (true, Option.none)

/-- Validation section of the `/save-test-results` handler
(`routes/api.py`, before the `TestResult` row is constructed); the third
component is the `accuracy` value the handler goes on to store. -/
def save_test_results_validation : Option TestData → Bool × Option String × Option PyFloat
  | Option.none => (false, some "No data provided", Option.none)
  | some d =>
    if ¬ d.outcome.truthy then (false, some "Outcome is required", Option.none)
    else if ¬ d.accuracy.truthy then (false, some "Accuracy is required", Option.none)
    else
      match pyFloatOf d.accuracy with
      | Option.none => (false, some "Accuracy must be a valid number", Option.none)
      | some accuracy =>
        if accuracy.ltb (.finite 0) ∨ accuracy.gtb (.finite 100) then
          (false, some "Accuracy must be between 0 and 100", Option.none)
        else (true, Option.none, some accuracy)

/-! ## Translator service (`services/translator.py`, `config.py`)

The network effects of the service are made explicit: each embedded operation
takes the outcome the network would produce as an argument and reports
how many fetches it performed, so cache and fallback behaviour are
provable facts about the state passing. -/

/-- One `{key, text}` entry of the language list. -/
structure Language where
  key : String
  text : String
deriving DecidableEq, Repr

/-- Embedding of `config.AzureTranslatorConfig`: the three environment variables. -/
structure AzureTranslatorConfig where
  TRANSLATOR_KEY : Option String
  TRANSLATOR_ENDPOINT : Option String
  TRANSLATOR_REGION : Option String
deriving DecidableEq, Repr

/-- Python truthiness of an environment value (`os.environ.get` result):
unset (`None`) and the empty string are both falsy. -/
def envTruthy : Option String → Bool
  | Option.none => false
  | some s => decide (s ≠ "")

/-- Embedding of `AzureTranslatorConfig.is_configured`, that is `all([key, endpoint, region])`. -/
def is_configured (c : AzureTranslatorConfig) : Bool :=
  envTruthy c.TRANSLATOR_KEY && envTruthy c.TRANSLATOR_ENDPOINT && envTruthy c.TRANSLATOR_REGION

/-- What the languages GET produces.  The first four constructors are the
distinct raising paths inside the `try` block (connection error, timeout,
`raise_for_status` on a non-2xx reply, `response.json()` failure); `ok`
carries the decoded JSON, whose `translation` key may be absent (`none`)
or hold the code-to-name items (`name` itself may be absent per item). -/
inductive LangFetchOutcome where
  | netError
  | timeout
  | badStatus
  | badJson
  | ok (translation : Option (List (String × Option String)))
deriving DecidableEq, Repr

/-- Every outcome on which the `try` block cannot build a language list
(the `except` branch runs, or the explicit missing-`translation` raise). -/
def LangFetchOutcome.fails : LangFetchOutcome → Bool
  | .ok (some _) => false
  | _ => true

/-- The sentinel placeholder entry prepended to every language list. -/
def sentinelLanguage : Language := ⟨"", "Select Target Language"⟩

/-- Embedding of `TranslatorService._get_fallback_languages`. -/
def _get_fallback_languages : List Language :=
  [ sentinelLanguage,
    ⟨"ar", "Arabic"⟩,
    ⟨"zh", "Chinese (Simplified)"⟩,
    ⟨"da", "Danish"⟩,
    ⟨"nl", "Dutch"⟩,
    ⟨"fi", "Finnish"⟩,
    ⟨"fr", "French"⟩,
    ⟨"de", "German"⟩,
    ⟨"hi", "Hindi"⟩,
    ⟨"it", "Italian"⟩,
    ⟨"ja", "Japanese"⟩,
    ⟨"ko", "Korean"⟩,
    ⟨"no", "Norwegian"⟩,
    ⟨"pl", "Polish"⟩,
    ⟨"pt", "Portuguese"⟩,
    ⟨"ru", "Russian"⟩,
    ⟨"es", "Spanish"⟩,
    ⟨"sv", "Swedish"⟩,
    ⟨"th", "Thai"⟩,
    ⟨"tr", "Turkish"⟩ ]

/-- Comparison used by the `sorted` call on the language-list tail, whose key is the display name. -/
def byText (a b : Language) : Prop := a.text ≤ b.text

instance : DecidableRel byText := fun a b =>
  (inferInstance : Decidable (a.text ≤ b.text))

/-- Build the success-path list: the sentinel, then one entry per
`translation` item (the `name` value, defaulting to the code), the tail
sorted stably by display name — `sorted` is a stable sort, embedded as the stable
`insertionSort`. -/
def buildLanguages (tr : List (String × Option String)) : List Language :=
  sentinelLanguage ::
    List.insertionSort byText (tr.map fun p => ⟨p.1, p.2.getD p.1⟩)

/-- Truthiness of `self.languages_cache` (`None` and `[]` are falsy). -/
def cacheTruthy : Option (List Language) → Bool
  | Option.none => false
  | some l => ¬ l.isEmpty

/-- Embedding of `TranslatorService.get_supported_languages`, as a transition on the
`languages_cache` field: given the outcome the network would produce,
return the result list, the new cache, and how many GETs were issued. -/
def get_supported_languages (cache : Option (List Language)) (net : LangFetchOutcome) :
    List Language × Option (List Language) × ℕ :=
  if cacheTruthy cache then (cache.getD [], cache, 0)
  else
    match net with
    | .ok (some tr) =>
      let languages := buildLanguages tr
      (languages, some languages, 1)
    | _ => (_get_fallback_languages, cache, 1)

/-- Run a sequence of `get_supported_languages` calls, threading the
cache; returns the `(result, fetches)` of each call and the final cache. -/
def runLanguageCalls (cache : Option (List Language)) :
    List LangFetchOutcome → List (List Language × ℕ) × Option (List Language)
  | [] => ([], cache)
  | net :: rest =>
    let step := get_supported_languages cache net
    let tail := runLanguageCalls step.2.1 rest
    ((step.1, step.2.2) :: tail.1, tail.2)

/-- Result of `translate_text` as the route observes it. -/
inductive TransResult where
  | success (translated_text : String) (source_language : String) (target_language : String)
  | failure (error : String)
deriving DecidableEq, Repr

/-- One element of the provider response array: the `translations`
value (a list of translated texts, `none` when the key is absent) and
`detectedLanguage.language` (`none` when either level is absent). -/
structure TransItem where
  translations : Option (List String)
  detectedLanguage : Option String
deriving DecidableEq, Repr

/-- What the translate POST produces: the three raising classes of the
`requests` call (`Timeout`, any other `RequestException` — which includes
`raise_for_status` on a non-2xx reply — and a `response.json()` decode
error), or a decoded JSON array. -/
inductive PostOutcome where
  | timeout
  | requestError (cause : String)
  | jsonError (cause : String)
  | ok (body : List TransItem)
deriving DecidableEq, Repr

/-- Embedding of `TranslatorService.translate_text`: result plus the number of POSTs
issued.  The guard clause returns before any network I/O; inside the
`try`, `Timeout` and `RequestException` have their own handlers, and the
final generic handler catches the json decode error, the explicit
`Exception("Invalid translation response")` raise, and the `IndexError`
from indexing an empty `translations` list. -/
def translate_text (cfg : AzureTranslatorConfig) (text target_language : String)
    (net : PostOutcome) : TransResult × ℕ :=
  if ¬ is_configured cfg then
    (.failure "Azure Translator service is not configured. Please set the required environment variables.", 0)
  else
    match net with
    | .timeout => (.failure "Translation request timed out. Please try again.", 1)
    | .requestError cause => (.failure ("Translation service error: " ++ cause), 1)
    | .jsonError cause => (.failure ("Translation failed: " ++ cause), 1)
    | .ok body =>
      match body with
      | [] => (.failure "Translation failed: Invalid translation response", 1)
      | item :: _ =>
        match item.translations with
        | Option.none => (.failure "Translation failed: Invalid translation response", 1)
        | some [] => (.failure "Translation failed: list index out of range", 1)
        | some (t :: _) =>
          (.success t (item.detectedLanguage.getD "auto") target_language, 1)

/-! ## Result store (`models.py`, `routes/api.py`)

The `test_results` table is embedded as a list of records in insertion
order.  `ORDER BY created_at DESC` with a deterministic engine keeps
equal keys in table order, which is exactly a stable sort on the single
key the query names, so it is embedded as `insertionSort` on that key
alone. -/

/-- A naive UTC timestamp as stored in `TestResult.created_at`. -/
structure Datetime where
  year : ℕ
  month : ℕ
  day : ℕ
  hour : ℕ
  minute : ℕ
  second : ℕ
deriving DecidableEq, Repr

def Datetime.toList (d : Datetime) : List ℕ :=
  [d.year, d.month, d.day, d.hour, d.minute, d.second]

/-- Chronological order: lexicographic on the components. -/
def Datetime.le (a b : Datetime) : Bool := decide (a.toList ≤ b.toList)

/-- Order on the nullable `created_at` column (`NULL` sorts first; the
column has an insert-time default, so claims only exercise non-null
values). -/
def optCreatedLe : Option Datetime → Option Datetime → Bool
  | Option.none, _ => true
  | some _, Option.none => false
  | some a, some b => a.le b

/-- One row of the `test_results` table (`models.TestResult`). -/
structure TestResult where
  id : ℕ
  outcome : String
  accuracy : PyFloat
  observation : Option String
  tested_by : Option String
  text_to_translate : Option String
  translated_text : Option String
  source_language : Option String
  target_language : Option String
  session_id : Option String
  created_at : Option Datetime
deriving DecidableEq, Repr

/-- The key comparison of `order_by(TestResult.created_at.desc())`:
`a` may precede `b` when `a.created_at ≥ b.created_at`. -/
def createdDesc (a b : TestResult) : Prop :=
  optCreatedLe b.created_at a.created_at = true

instance : DecidableRel createdDesc := fun a b =>
  (inferInstance : Decidable (optCreatedLe b.created_at a.created_at = true))

/-- The `/test-results` handler (`routes/api.py:get_test_results`):
optional exact `outcome` filter (skipped when the query parameter is
absent or falsy), sort by `created_at` descending, then the
`paginate(page, per_page)` slice. -/
def get_test_results (table : List TestResult) (page per_page : ℕ)
    (outcome_filter : Option String) : List TestResult :=
  let query := if envTruthy outcome_filter then
      table.filter fun r => decide (r.outcome = outcome_filter.getD "")
    else table
  let sorted := List.insertionSort createdDesc query
  (sorted.drop ((page - 1) * per_page)).take per_page

/-- Zero-padding to two digits, as `strftime` does. -/
def pad2 (n : ℕ) : String := if n < 10 then "0" ++ toString n else toString n

/-- Zero-padding to four digits, as `strftime` does for the year. -/
def pad4 (n : ℕ) : String :=
  if n < 10 then "000" ++ toString n
  else if n < 100 then "00" ++ toString n
  else if n < 1000 then "0" ++ toString n
  else toString n

/-- Embedding of the `strftime` date format used by the export. -/
def Datetime.strftime (d : Datetime) : String :=
  pad4 d.year ++ "-" ++ pad2 d.month ++ "-" ++ pad2 d.day ++ " " ++
    pad2 d.hour ++ ":" ++ pad2 d.minute ++ ":" ++ pad2 d.second

/-- A spreadsheet cell as `openpyxl` sees it after `df.to_excel`. -/
inductive Cell where
  | intC (n : ℕ)
  | strC (s : String)
  | noneC
  | floatC (x : PyFloat)
deriving DecidableEq, Repr

def cellOfOpt : Option String → Cell
  | some s => .strC s
  | Option.none => .noneC

/-- Length of `str(cell.value)`, driving the column auto-sizing.  For
float cells the Python shortest-repr algorithm is not reproduced; a
representative decimal-rendering length stands in (every proved width
statement is insensitive to this, since widths are only ever bounded by
the 50 cap the code applies). -/
def Cell.strLen : Cell → ℕ
  | .intC n => (Nat.toDigits 10 n).length
  | .strC s => s.data.length
  | .noneC => 4
  | .floatC (.inf) => 3
  | .floatC (.ninf) => 4
  | .floatC (.nan) => 3
  | .floatC (.finite q) =>
    (Nat.toDigits 10 q.num.natAbs).length + (if q.num < 0 then 1 else 0) +
      (if q.den = 1 then 2 else 1 + (Nat.toDigits 10 q.den).length)

/-- The 11 DataFrame column names, in construction order. -/
def exportHeaders : List String :=
  [ "ID", "Text to Translate", "Translated Text", "Source Language", "Target Language",
    "Outcome", "Observation", "Accuracy (%)", "Tested By", "Date Created", "Session ID" ]

/-- The dict appended to `data` for one record in `export_test_results`. -/
def rowOf (r : TestResult) : List Cell :=
  [ .intC r.id,
    cellOfOpt r.text_to_translate,
    cellOfOpt r.translated_text,
    cellOfOpt r.source_language,
    cellOfOpt r.target_language,
    .strC r.outcome,
    cellOfOpt r.observation,
    .floatC r.accuracy,
    cellOfOpt r.tested_by,
    .strC (match r.created_at with | some d => d.strftime | Option.none => ""),
    cellOfOpt r.session_id ]

/-- Column sizing: `min(max_length + 2, 50)` where `max_length` starts
at 0 and runs over every cell of the column, the header cell included. -/
def columnWidth (headerLen : ℕ) (cellLens : List ℕ) : ℕ :=
  min (cellLens.foldl max headerLen + 2) 50

/-- The worksheet `export_test_results` would hand to `send_file`. -/
structure ExportTable where
  headers : List String
  rows : List (List Cell)
  widths : List ℕ
deriving DecidableEq, Repr

/-- The `/export-test-results` handler (`routes/api.py`): all records
sorted by `created_at` descending; a 404 error when there are none;
otherwise one worksheet row per record under the 11 headers, with
auto-sized, capped column widths. -/
def export_test_results (table : List TestResult) : Except String ExportTable :=
  let results := List.insertionSort createdDesc table
  if results.isEmpty then .error "No test results to export"
  else
    let rows := results.map rowOf
    let widths := (List.range exportHeaders.length).map fun j =>
      columnWidth (exportHeaders.getD j "").data.length
        (rows.map fun row => (row.getD j Cell.noneC).strLen)
    .ok ⟨exportHeaders, rows, widths⟩

/-! ## Specification-side check list for the translation validator -/

/-- The `text` field as the validator reads it, with the empty-string default. -/
def payloadText (p : Option TransData) : String :=
  match p with
  | some d => d.text.getD ""
  | Option.none => ""

/-- The `target_language` field as the validator reads it. -/
def payloadTarget (p : Option TransData) : String :=
  match p with
  | some d => d.target_language.getD ""
  | Option.none => ""

/-- The four checks of the spec, in the order it fixes, each paired with
its failure message. -/
def translationChecks (p : Option TransData) : List (Bool × String) :=
  [ (p.isNone, "No data provided"),
    (decide (pyStrip (payloadText p) = ""), "Please enter text to translate"),
    (decide (pyStrip (payloadTarget p) = ""), "Please select a target language"),
    (decide ((pyStrip (payloadText p)).length > 5000),
      "Text is too long. Maximum 5000 characters allowed.") ]

/-- The message of the first failing check, if any check fails. -/
def firstFailingMessage (checks : List (Bool × String)) : Option String :=
  (checks.find? fun c => c.1).map fun c => c.2

/-! ## Claim theorems -/

/-- C3: `validate_translation_request` runs its checks in the fixed order
(payload absent, trimmed text empty, trimmed target_language empty,
trimmed text longer than 5000 characters) and, for every payload, returns
the failure message of the first check that fails, or success when none
fails. -/
theorem validate_translation_request_first_failing_check (p : Option TransData) :
    validate_translation_request p =
      match firstFailingMessage (translationChecks p) with
      | some msg => (false, some msg)
      | Option.none => (true, Option.none) := by
  cases p with
  | none => rfl
  | some d =>
    by_cases h1 : pyStrip (d.text.getD "") = "" <;>
      by_cases h2 : pyStrip (d.target_language.getD "") = "" <;>
        by_cases h3 : (pyStrip (d.text.getD "")).length > 5000 <;>
          simp [validate_translation_request, translationChecks, firstFailingMessage,
            payloadText, payloadTarget, List.find?, h1, h2, h3]

/-- C9: the validation inlined in the `/translate` and
`/save-test-results` route handlers agrees with the pure validators on
every payload: same accept/reject decision, same error message, and (for
test-result data) the same normalized accuracy. -/
theorem inline_route_validation_matches_validators :
    (∀ p : Option TransData, translate_route_validation p = validate_translation_request p) ∧
    (∀ p : Option TestData, save_test_results_validation p = validate_test_result_data p) := by
  constructor <;> intro p <;> cases p <;> rfl

/-- Helper: once `outcome` is truthy, `validate_test_result_data` is the
accuracy pipeline alone. -/
theorem validate_test_result_data_outcome_truthy (out acc : PyVal) (h : out.truthy = true) :
    validate_test_result_data (some ⟨out, acc⟩) =
      (if ¬ acc.truthy then (false, some "Accuracy is required", Option.none)
       else match pyFloatOf acc with
       | Option.none => (false, some "Accuracy must be a valid number", Option.none)
       | some accuracy =>
         if accuracy.ltb (.finite 0) ∨ accuracy.gtb (.finite 100) then
           (false, some "Accuracy must be between 0 and 100", Option.none)
         else (true, Option.none, some accuracy)) := by
  simp [validate_test_result_data, h]

/-- C10: `validate_test_result_data` treats the numeric accuracy value 0
as absent, rejecting with "Accuracy is required", while it accepts the
string value "0" with normalized accuracy 0.0 — whether a zero accuracy
is accepted depends on whether it arrives as a JSON number or string. -/
theorem accuracy_zero_number_rejected_string_accepted (out : PyVal) (h : out.truthy = true) :
    validate_test_result_data (some ⟨out, .num (.finite 0)⟩)
        = (false, some "Accuracy is required", Option.none) ∧
    validate_test_result_data (some ⟨out, .str "0"⟩)
        = (true, Option.none, some (.finite 0)) := by
  rw [validate_test_result_data_outcome_truthy _ _ h, validate_test_result_data_outcome_truthy _ _ h]
  constructor <;> decide

/-- Witness for C10 at a concrete truthy outcome. -/
theorem accuracy_zero_number_rejected_string_accepted_witness :
    validate_test_result_data (some ⟨.str "Success", .num (.finite 0)⟩)
        = (false, some "Accuracy is required", Option.none) ∧
    validate_test_result_data (some ⟨.str "Success", .str "0"⟩)
        = (true, Option.none, some (.finite 0)) :=
  accuracy_zero_number_rejected_string_accepted (.str "Success") (by decide)

/-- C2 (code bug evidence): the payload `{"outcome": "Success",
"accuracy": "nan"}` has a present, truthy accuracy field; `float("nan")`
parses to NaN, which is not finite; yet `validate_test_result_data`
returns success and hands NaN on for storage, because `nan < 0` and
`nan > 100` are both false — contradicting the claim that a non-finite
accuracy is rejected and a successful validation yields a value in
[0,100]. -/
theorem accuracy_nan_accepted_by_validator :
    PyVal.truthy (.str "nan") = true ∧
    pyFloatOf (.str "nan") = some PyFloat.nan ∧
    PyFloat.isFinite PyFloat.nan = false ∧
    PyFloat.ltb PyFloat.nan (.finite 0) = false ∧
    PyFloat.gtb PyFloat.nan (.finite 100) = false ∧
    validate_test_result_data (some ⟨.str "Success", .str "nan"⟩)
      = (true, Option.none, some PyFloat.nan) := by
  decide

/-- A fully configured provider credential set, for concrete instances. -/
def cfgFull : AzureTranslatorConfig :=
  ⟨some "key", some "https://endpoint", some "region"⟩

/-- An unconfigured provider credential set. -/
def cfgEmpty : AzureTranslatorConfig := ⟨Option.none, Option.none, Option.none⟩

/-- C6: whenever the provider credentials are not all configured,
`translate_text` returns a failure whose error message contains
"not configured", and performs zero network calls — for every input text,
target language, and would-be network outcome. -/
theorem translate_text_unconfigured_no_network (cfg : AzureTranslatorConfig)
    (text target_language : String) (net : PostOutcome)
    (h : is_configured cfg = false) :
    ∃ msg, translate_text cfg text target_language net = (.failure msg, 0) ∧
      ∃ pre post, msg = pre ++ "not configured" ++ post := by
  refine ⟨"Azure Translator service is not configured. Please set the required environment variables.",
    by simp [translate_text, h], "Azure Translator service is ",
    ". Please set the required environment variables.", by decide⟩

/-- Witness for C6 on concrete inputs. -/
theorem translate_text_unconfigured_no_network_witness :
    ∃ msg, translate_text cfgEmpty "Hello" "fr" .timeout = (.failure msg, 0) ∧
      ∃ pre post, msg = pre ++ "not configured" ++ post :=
  translate_text_unconfigured_no_network cfgEmpty "Hello" "fr" .timeout (by decide)

/-- C7: `translate_text` never raises (it is a total function into
structured results) and classifies failures mutually exclusively, first
match winning: not-configured gives the configuration error before any
network outcome matters; then a timeout gives the timeout error; any
other transport-level error gives a transport error carrying the
underlying cause; a malformed or unexpected response gives a
translation-failed error carrying the underlying cause; and every result
is a structured success or `{success:false, error}` value. -/
theorem translate_text_failure_classification (cfg : AzureTranslatorConfig)
    (text target_language : String) (net : PostOutcome) :
    (is_configured cfg = false →
      translate_text cfg text target_language net =
        (.failure "Azure Translator service is not configured. Please set the required environment variables.", 0)) ∧
    (is_configured cfg = true →
      (net = .timeout →
        translate_text cfg text target_language net =
          (.failure "Translation request timed out. Please try again.", 1)) ∧
      (∀ cause, net = .requestError cause →
        translate_text cfg text target_language net =
          (.failure ("Translation service error: " ++ cause), 1)) ∧
      (∀ cause, net = .jsonError cause →
        translate_text cfg text target_language net =
          (.failure ("Translation failed: " ++ cause), 1)) ∧
      (∀ body, net = .ok body →
        (∃ t s, translate_text cfg text target_language net = (.success t s target_language, 1)) ∨
        (∃ cause, translate_text cfg text target_language net =
          (.failure ("Translation failed: " ++ cause), 1)))) ∧
    ((∃ t s tl, (translate_text cfg text target_language net).1 = .success t s tl) ∨
     (∃ msg, (translate_text cfg text target_language net).1 = .failure msg)) := by
  refine ⟨fun h => by simp [translate_text, h], fun h => ?_, ?_⟩
  · refine ⟨fun ht => by simp [translate_text, h, ht],
      fun cause hc => by simp [translate_text, h, hc],
      fun cause hc => by simp [translate_text, h, hc],
      fun body hb => ?_⟩
    subst hb
    match body with
    | [] => exact Or.inr ⟨"Invalid translation response", by simp [translate_text, h]⟩
    | item :: rest =>
      match hit : item.translations with
      | Option.none =>
        exact Or.inr ⟨"Invalid translation response", by simp [translate_text, h, hit]⟩
      | some [] =>
        exact Or.inr ⟨"list index out of range", by simp [translate_text, h, hit]⟩
      | some (t :: ts) =>
        exact Or.inl ⟨t, item.detectedLanguage.getD "auto", by simp [translate_text, h, hit]⟩
  · cases hr : (translate_text cfg text target_language net).1 with
    | success t s tl => exact Or.inl ⟨t, s, tl, rfl⟩
    | failure msg => exact Or.inr ⟨msg, rfl⟩

/-- Witness for C7: a transport-level error on a configured client. -/
theorem translate_text_failure_classification_witness :
    translate_text cfgFull "Hello" "fr" (.requestError "boom") =
      (.failure ("Translation service error: " ++ "boom"), 1) :=
  ((translate_text_failure_classification cfgFull "Hello" "fr"
    (.requestError "boom")).2.1 (by decide)).2.1 "boom" rfl

instance : IsTrans Language byText :=
  ⟨fun a b c hab hbc => le_trans hab hbc⟩

instance : IsTotal Language byText :=
  ⟨fun a b => le_total a.text b.text⟩

/-- Helper: a call that starts from a truthy (non-empty) cache returns it
unchanged with no fetch. -/
theorem get_supported_languages_cached (l : List Language) (hl : l ≠ [])
    (net : LangFetchOutcome) :
    get_supported_languages (some l) net = (l, some l, 0) := by
  simp [get_supported_languages, cacheTruthy, hl]

/-- Helper: any number of calls starting from a truthy cache all return
the cached list with zero fetches and leave the cache unchanged. -/
theorem runLanguageCalls_cached (l : List Language) (hl : l ≠ []) :
    ∀ nets : List LangFetchOutcome,
      runLanguageCalls (some l) nets = (nets.map fun _ => (l, 0), some l) := by
  intro nets
  induction nets with
  | nil => rfl
  | cons net rest ih =>
    simp [runLanguageCalls, get_supported_languages_cached l hl net, ih]

/-- Helper: a successful first fetch caches exactly the list it returns. -/
theorem get_supported_languages_first_success (tr : List (String × Option String)) :
    get_supported_languages Option.none (.ok (some tr)) =
      (buildLanguages tr, some (buildLanguages tr), 1) := by
  simp [get_supported_languages, cacheTruthy]

/-- Helper: a failing fetch on an untruthy cache falls back and caches
nothing. -/
theorem get_supported_languages_failure (cache : Option (List Language))
    (net : LangFetchOutcome) (hc : cacheTruthy cache = false) (hf : net.fails = true) :
    get_supported_languages cache net = (_get_fallback_languages, cache, 1) := by
  unfold get_supported_languages
  rw [hc]
  cases net with
  | ok tr =>
    cases tr with
    | none => rfl
    | some l => simp [LangFetchOutcome.fails] at hf
  | netError => rfl
  | timeout => rfl
  | badStatus => rfl
  | badJson => rfl

/-- C4: after one successful fetch the returned list is cached verbatim,
and every subsequent call — any number of them, whatever the network
would now do — performs zero fetches and returns a list identical to the
cached one; after a failing fetch nothing is cached, so the next call
re-attempts the network fetch. -/
theorem language_cache_after_success_and_failure
    (tr : List (String × Option String)) (rest : List LangFetchOutcome)
    (net net2 : LangFetchOutcome) (hfail : net.fails = true) :
    ((get_supported_languages Option.none (.ok (some tr))).2.1 =
        some ((get_supported_languages Option.none (.ok (some tr))).1)) ∧
    (runLanguageCalls (get_supported_languages Option.none (.ok (some tr))).2.1 rest =
        (rest.map fun _ => ((get_supported_languages Option.none (.ok (some tr))).1, 0),
         (get_supported_languages Option.none (.ok (some tr))).2.1)) ∧
    ((get_supported_languages Option.none net).2.1 = Option.none ∧
     (get_supported_languages Option.none net).2.2 = 1) ∧
    ((get_supported_languages (get_supported_languages Option.none net).2.1 net2).2.2 = 1) := by
  have hfirst := get_supported_languages_first_success tr
  have hne : buildLanguages tr ≠ [] := by simp [buildLanguages]
  have hfailstep := get_supported_languages_failure Option.none net rfl hfail
  refine ⟨by rw [hfirst], ?_, by rw [hfailstep]; exact ⟨rfl, rfl⟩, ?_⟩
  · rw [hfirst]
    exact runLanguageCalls_cached _ hne rest
  · rw [hfailstep]
    cases net2 with
    | ok tr2 =>
      cases tr2 with
      | none => rfl
      | some l => simp [get_supported_languages, cacheTruthy]
    | netError => rfl
    | timeout => rfl
    | badStatus => rfl
    | badJson => rfl

/-- Witness for C4: a successful fetch of one language followed by two
calls under a dead network, and separately a failing first fetch. -/
theorem language_cache_after_success_and_failure_witness :
    ((get_supported_languages Option.none (.ok (some [("fr", some "French")]))).2.1 =
        some ((get_supported_languages Option.none (.ok (some [("fr", some "French")]))).1)) ∧
    (runLanguageCalls (get_supported_languages Option.none
          (.ok (some [("fr", some "French")]))).2.1 [.timeout, .netError] =
        (([.timeout, .netError] : List LangFetchOutcome).map fun _ =>
          ((get_supported_languages Option.none (.ok (some [("fr", some "French")]))).1, 0),
         (get_supported_languages Option.none (.ok (some [("fr", some "French")]))).2.1)) ∧
    ((get_supported_languages Option.none .badJson).2.1 = Option.none ∧
     (get_supported_languages Option.none .badJson).2.2 = 1) ∧
    ((get_supported_languages (get_supported_languages Option.none .badJson).2.1 .timeout).2.2 = 1) :=
  language_cache_after_success_and_failure [("fr", some "French")]
    [.timeout, .netError] .badJson .timeout rfl

/-- C5: `get_supported_languages` never raises: with a cold cache, every
failure path (network error, timeout, non-2xx status, malformed JSON,
missing `translation` key) returns the fixed fallback list — the sentinel
entry followed by 19 hardcoded languages — while a successful fetch
returns the sentinel entry first, followed by the fetched entries sorted
by display name. -/
theorem get_supported_languages_fallback_or_sorted (cache : Option (List Language))
    (net : LangFetchOutcome) (hc : cacheTruthy cache = false) :
    (net.fails = true →
      (get_supported_languages cache net).1 = _get_fallback_languages) ∧
    (_get_fallback_languages.head? = some sentinelLanguage ∧
      _get_fallback_languages.tail.length = 19) ∧
    (∀ tr, net = .ok (some tr) →
      ∃ restL, (get_supported_languages cache net).1 = sentinelLanguage :: restL ∧
        List.Sorted byText restL ∧
        restL.Perm (tr.map fun p => ⟨p.1, p.2.getD p.1⟩)) := by
  refine ⟨fun hf => by rw [get_supported_languages_failure cache net hc hf], by decide,
    fun tr hnet => ?_⟩
  subst hnet
  refine ⟨List.insertionSort byText (tr.map fun p => ⟨p.1, p.2.getD p.1⟩), ?_, ?_, ?_⟩
  · unfold get_supported_languages
    rw [hc]
    rfl
  · exact List.sorted_insertionSort byText _
  · exact List.perm_insertionSort byText _

/-- Witness for C5: a cold cache with a failing fetch, and the success
shape on a two-language response. -/
theorem get_supported_languages_fallback_or_sorted_witness :
    ((get_supported_languages Option.none .timeout).1 = _get_fallback_languages) ∧
    (∃ restL, (get_supported_languages Option.none
        (.ok (some [("de", some "German"), ("ar", some "Arabic")]))).1 =
          sentinelLanguage :: restL ∧
      List.Sorted byText restL ∧
      restL.Perm ([("de", some "German"), ("ar", some "Arabic")].map fun p => ⟨p.1, p.2.getD p.1⟩)) :=
  ⟨(get_supported_languages_fallback_or_sorted Option.none .timeout rfl).1 rfl,
   (get_supported_languages_fallback_or_sorted Option.none
      (.ok (some [("de", some "German"), ("ar", some "Arabic")])) rfl).2.2 _ rfl⟩

theorem optCreatedLe_trans (a b c : Option Datetime)
    (hab : optCreatedLe a b = true) (hbc : optCreatedLe b c = true) :
    optCreatedLe a c = true := by
  cases a with
  | none => rfl
  | some x =>
    cases b with
    | none => simp [optCreatedLe] at hab
    | some y =>
      cases c with
      | none => simp [optCreatedLe] at hbc
      | some z =>
        simp only [optCreatedLe, Datetime.le, decide_eq_true_eq] at *
        exact le_trans hab hbc

theorem optCreatedLe_total (a b : Option Datetime) :
    optCreatedLe a b = true ∨ optCreatedLe b a = true := by
  cases a with
  | none => exact Or.inl rfl
  | some x =>
    cases b with
    | none => exact Or.inr rfl
    | some y =>
      simp only [optCreatedLe, Datetime.le, decide_eq_true_eq]
      exact le_total x.toList y.toList

instance : IsTrans TestResult createdDesc :=
  ⟨fun a b c hab hbc => optCreatedLe_trans _ _ _ hbc hab⟩

instance : IsTotal TestResult createdDesc :=
  ⟨fun a b => optCreatedLe_total b.created_at a.created_at⟩

/-- Two stored records sharing one `created_at` timestamp, inserted in
ascending id order. -/
def tieEarlier : TestResult :=
  ⟨1, "Success", .finite 90, Option.none, Option.none, some "Hello", some "Bonjour",
    some "auto", some "fr", Option.none, some ⟨2026, 1, 1, 12, 0, 0⟩⟩

/-- The second record of the tie: same `created_at`, larger id. -/
def tieLater : TestResult :=
  ⟨2, "Success", .finite 80, Option.none, Option.none, some "Hi", some "Salut",
    some "auto", some "fr", Option.none, some ⟨2026, 1, 1, 12, 0, 0⟩⟩

/-- C1 counterexample: the query orders by `created_at` alone, so two
records with equal `createdAt` come back in table order — id ascending
here — not in the id-descending order the claim asserts. -/
theorem get_test_results_equal_createdAt_not_id_desc :
    tieEarlier.created_at = tieLater.created_at ∧
    tieEarlier.id < tieLater.id ∧
    (get_test_results [tieEarlier, tieLater] 1 10 Option.none).map TestResult.id = [1, 2] := by
  decide

/-- C1 as amended: every page returned by a list query is ordered by
`createdAt` descending (non-strictly; records with equal `createdAt`
keep their table order, since the query applies no id tie-break). -/
theorem get_test_results_sorted_createdAt_desc (table : List TestResult)
    (page per_page : ℕ) (f : Option String) :
    List.Sorted createdDesc (get_test_results table page per_page f) := by
  unfold get_test_results
  have hs := List.sorted_insertionSort createdDesc
    (if envTruthy f then table.filter fun r => decide (r.outcome = f.getD "") else table)
  exact hs.sublist ((List.take_sublist _ _).trans (List.drop_sublist _ _))

/-- A representative stored record for concrete instances. -/
def sampleResult : TestResult :=
  ⟨1, "Success", .finite (mkRat 955 10), some "looks right", some "tester", some "Hello",
    some "Bonjour", some "auto", some "fr", some "sess-1", some ⟨2026, 1, 2, 3, 4, 5⟩⟩

/-- C8: exporting fails with the explicit no-data error exactly on an
empty store (no table is produced), and for N > 0 stored records
produces a table with exactly N data rows under the 11 named columns
(`Date Created` rendered in the `YYYY-MM-DD HH:MM:SS` format inside
`rowOf`), every row drawn from a stored record, accuracy cells equal to
the stored floats, and all 11 column widths capped at 50. -/
theorem export_test_results_shape (table : List TestResult) :
    (table = [] → export_test_results table = .error "No test results to export") ∧
    (table ≠ [] → ∃ t : ExportTable, export_test_results table = .ok t ∧
      t.headers = exportHeaders ∧
      t.headers.length = 11 ∧
      t.rows.length = table.length ∧
      (∀ row ∈ t.rows, row.length = 11) ∧
      (∀ row ∈ t.rows, ∃ r ∈ table, row = rowOf r) ∧
      List.Perm (t.rows.map fun row => row.getD 7 Cell.noneC)
        (table.map fun r => Cell.floatC r.accuracy) ∧
      t.widths.length = 11 ∧
      (∀ w ∈ t.widths, w ≤ 50)) := by
  have hperm := List.perm_insertionSort createdDesc table
  constructor
  · intro h
    subst h
    rfl
  · intro h
    have hne : List.insertionSort createdDesc table ≠ [] := by
      intro h0
      exact h (List.length_eq_zero.mp (by rw [← hperm.length_eq, h0]; rfl))
    unfold export_test_results
    rw [if_neg (by simpa [List.isEmpty_iff] using hne)]
    refine ⟨_, rfl, rfl, rfl, ?_, ?_, ?_, ?_, ?_, ?_⟩
    · simp [hperm.length_eq]
    · intro row hrow
      obtain ⟨r, _, hr⟩ := List.mem_map.mp hrow
      rw [← hr]
      rfl
    · intro row hrow
      obtain ⟨r, hrs, hr⟩ := List.mem_map.mp hrow
      exact ⟨r, hperm.subset hrs, hr.symm⟩
    · rw [List.map_map]
      exact hperm.map fun r => Cell.floatC r.accuracy
    · rfl
    · intro w hw
      obtain ⟨j, _, hj⟩ := List.mem_map.mp hw
      rw [← hj]
      exact min_le_right _ _

/-- Witness for C8: the empty store errors; a one-record store exports
one row with the stated shape. -/
theorem export_test_results_shape_witness :
    (export_test_results [] = .error "No test results to export") ∧
    (∃ t : ExportTable, export_test_results [sampleResult] = .ok t ∧
      t.headers = exportHeaders ∧
      t.headers.length = 11 ∧
      t.rows.length = [sampleResult].length ∧
      (∀ row ∈ t.rows, row.length = 11) ∧
      (∀ row ∈ t.rows, ∃ r ∈ [sampleResult], row = rowOf r) ∧
      List.Perm (t.rows.map fun row => row.getD 7 Cell.noneC)
        ([sampleResult].map fun r => Cell.floatC r.accuracy) ∧
      t.widths.length = 11 ∧
      (∀ w ∈ t.widths, w ≤ 50)) :=
  ⟨(export_test_results_shape []).1 rfl,
   (export_test_results_shape [sampleResult]).2 (by simp)⟩

end PLM
